import Mathlib

/-!
Verification development for the Enco video-encoder bot (src/main.py).

The Python source is shallowly embedded below: pure helpers become Lean
functions, the stateful handlers become explicit state-passing functions,
and the outside world (asset transfer, the ffmpeg/ffprobe child processes,
the Telegram transport) is represented by explicit parameters describing
the observable outcome of each external interaction.
-/

namespace Enco

/-! ## Decimal rendering of naturals

Python renders `message.id` and `message.from_user.id` into scratch paths
with `f"{...}"`, i.e. decimal digits.  `natToChars` is that rendering; the
fuel-based recursion keeps it kernel-reducible. -/

def digitChar (d : Nat) : Char := Char.ofNat (d + 48)

def natCharsAux : Nat → Nat → List Char
  | 0, _ => []
  | _ + 1, 0 => []
  | fuel + 1, n + 1 => natCharsAux fuel ((n + 1) / 10) ++ [digitChar ((n + 1) % 10)]

def natToChars (n : Nat) : List Char :=
  if n = 0 then ['0'] else natCharsAux n n

theorem natCharsAux_eq_digits (fuel : Nat) :
    ∀ n : Nat, n ≤ fuel →
      natCharsAux fuel n = ((Nat.digits 10 n).reverse).map digitChar := by
  induction fuel with
  | zero =>
    intro n hn
    have h0 : n = 0 := Nat.le_zero.mp hn
    subst h0
    simp [natCharsAux]
  | succ fuel ih =>
    intro n hn
    match n with
    | 0 => simp [natCharsAux]
    | m + 1 =>
      have hlt : (m + 1) / 10 < m + 1 := Nat.div_lt_self (Nat.succ_pos m) (by norm_num)
      have hle : (m + 1) / 10 ≤ fuel := by omega
      have hdig : Nat.digits 10 (m + 1) = (m + 1) % 10 :: Nat.digits 10 ((m + 1) / 10) :=
        Nat.digits_def' (by norm_num) (Nat.succ_pos m)
      rw [natCharsAux, ih ((m + 1) / 10) hle, hdig]
      simp

theorem natToChars_eq (n : Nat) :
    natToChars n = if n = 0 then ['0'] else ((Nat.digits 10 n).reverse).map digitChar := by
  unfold natToChars
  by_cases h : n = 0
  · simp [h]
  · simp [h, natCharsAux_eq_digits n n (Nat.le_refl n)]

def unDigit (c : Char) : Nat := c.toNat - 48

theorem unDigit_digitChar {d : Nat} (hd : d < 10) : unDigit (digitChar d) = d := by
  interval_cases d <;> decide

theorem digitChar_ne_underscore {d : Nat} (hd : d < 10) : digitChar d ≠ '_' := by
  interval_cases d <;> decide

theorem underscore_not_mem_natToChars (n : Nat) : '_' ∉ natToChars n := by
  rw [natToChars_eq]
  by_cases h : n = 0
  · simp [h]
  · simp only [h, if_neg, ite_false, List.mem_map]
    rintro ⟨d, hd, heq⟩
    have hd10 : d < 10 := Nat.digits_lt_base (by norm_num) (List.mem_reverse.mp hd)
    exact digitChar_ne_underscore hd10 heq

theorem natToChars_recover (n : Nat) :
    Nat.ofDigits 10 (((natToChars n).map unDigit).reverse) = n := by
  rw [natToChars_eq]
  by_cases h : n = 0
  · simp [h, unDigit, Nat.ofDigits]
  · simp only [h, ite_false, List.map_map]
    have hmap : ((Nat.digits 10 n).reverse).map (unDigit ∘ digitChar)
        = ((Nat.digits 10 n).reverse).map id := by
      apply List.map_congr_left
      intro d hd
      have hd10 : d < 10 := Nat.digits_lt_base (by norm_num) (List.mem_reverse.mp hd)
      simp [unDigit_digitChar hd10]
    rw [hmap]
    simp [Nat.ofDigits_digits]

theorem natToChars_injective {a b : Nat} (h : natToChars a = natToChars b) : a = b := by
  have := congrArg (fun l => Nat.ofDigits 10 ((l.map unDigit).reverse)) h
  simpa [natToChars_recover] using this

/-- Splitting a character list at a separator that occurs in neither prefix is
unambiguous. -/
theorem append_sep_inj :
    ∀ (xs xs' ys ys' : List Char), '_' ∉ xs → '_' ∉ xs' →
      xs ++ '_' :: ys = xs' ++ '_' :: ys' → xs = xs' ∧ ys = ys' := by
  intro xs
  induction xs with
  | nil =>
    intro xs' ys ys' _ hxs' heq
    match xs' with
    | [] => simpa using heq
    | c :: t =>
      exfalso
      have hc : c = '_' := by
        have := congrArg (fun l => l.head?) heq
        simpa using this.symm
      exact hxs' (by simp [hc])
  | cons c t ih =>
    intro xs' ys ys' hxs hxs' heq
    match xs' with
    | [] =>
      exfalso
      have hc : c = '_' := by
        have := congrArg (fun l => l.head?) heq
        simpa using this
      exact hxs (by simp [hc])
    | c' :: t' =>
      have hc : c = c' := by
        have := congrArg (fun l => l.head?) heq
        simpa using this
      have htail : t ++ '_' :: ys = t' ++ '_' :: ys' := by
        have := congrArg (fun l => l.tail) heq
        simpa using this
      have hrec := ih t' ys ys' (fun hm => hxs (by simp [hm])) (fun hm => hxs' (by simp [hm])) htail
      exact ⟨by rw [hc, hrec.1], hrec.2⟩

/-! ## Character-list string primitives

Kernel-reducible models of the Python string operations the handlers use:
`str.startswith`, `str.split(sep)` and `int(...)`. -/

def isPrefixChars : List Char → List Char → Bool
  | [], _ => true
  | _ :: _, [] => false
  | p :: ps, c :: cs => p = c && isPrefixChars ps cs

/-- Python's `str.split(sep)` for a one-character separator. -/
def splitOnChar (c : Char) : List Char → List (List Char)
  | [] => [[]]
  | a :: t =>
    match splitOnChar c t with
    | [] => if a = c then [[], []] else [[a]]
    | h :: r => if a = c then [] :: h :: r else (a :: h) :: r

def charDigit? (c : Char) : Option Nat :=
  if 48 ≤ c.toNat ∧ c.toNat ≤ 57 then some (c.toNat - 48) else none

def parseNatDigits (cs : List Char) : Option Nat :=
  match cs with
  | [] => none
  | _ =>
    cs.foldl (fun acc c =>
      match acc, charDigit? c with
      | some n, some d => some (10 * n + d)
      | _, _ => none) (some 0)

/-- Python's `int(...)` on a stripped decimal literal; `none` models the
`ValueError` raise. -/
def pyInt? (cs : List Char) : Option Int :=
  match cs with
  | '-' :: rest => (parseNatDigits rest).map (fun n => -(n : Int))
  | '+' :: rest => (parseNatDigits rest).map (fun n => (n : Int))
  | _ => (parseNatDigits cs).map (fun n => (n : Int))

/-! ## VideoEncoder (src/main.py lines 279-412)

`QUALITY_PRESETS`, `get_video_info` (ffprobe adapter), `encode_video`
(process supervisor plus progress parsing) and
`generate_output_filename`. -/

namespace VideoEncoder

structure Preset where
  width : Nat
  height : Nat
  bitrate : String
deriving DecidableEq

/-- `VideoEncoder.QUALITY_PRESETS` (lines 282-286): the three quality presets.
An unknown key yields `none` (a Python `KeyError`). -/
def QUALITY_PRESETS (q : String) : Option Preset :=
  if q = "720p" then some ⟨1280, 720, "2000k"⟩
  else if q = "480p" then some ⟨854, 480, "1000k"⟩
  else if q = "360p" then some ⟨640, 360, "500k"⟩
  else none

structure StreamInfo where
  codec_type : String
  width : Option Nat
  height : Option Nat
deriving DecidableEq

structure FormatInfo where
  duration : Option ℚ
  size : Option Nat
deriving DecidableEq

/-- The structured metadata the probe tool printed, when it ran successfully
and its output parsed.  `none` at the call site stands for every failure
mode: unreadable artifact, malformed output, or a non-zero tool exit (the
code's bare `except` swallows all of them at lines 315-316). -/
structure ProbeJson where
  format : FormatInfo
  streams : List StreamInfo
deriving DecidableEq

structure VideoInfo where
  duration : ℚ
  size : Nat
  width : Nat
  height : Nat
deriving DecidableEq

/-- `VideoEncoder.get_video_info` (lines 288-318).  Runs ffprobe and reads
`format.duration`, `format.size` and the first video stream's dimensions.
Any failure — and also the absence of a video stream, which makes the
`for` loop fall through — returns the all-zero record.  The function is
total: it never raises to its caller. -/
def get_video_info (probe : Option ProbeJson) : VideoInfo :=
  match probe with
  | none => ⟨0, 0, 0, 0⟩
  | some info =>
    match info.streams.find? (fun s => s.codec_type == "video") with
    | some s => ⟨info.format.duration.getD 0, info.format.size.getD 0,
                 s.width.getD 0, s.height.getD 0⟩
    | none => ⟨0, 0, 0, 0⟩

/-- Parsing of one progress line (lines 367-370): lines starting with
`out_time_ms=` carry the elapsed output time in microseconds; a
non-integer payload raises inside the inner `try` and is skipped. -/
def parseOutTime (line : String) : Option Int :=
  if isPrefixChars (("out_time_ms=").data) line.data then
    match (splitOnChar '=' line.data).get? 1 with
    | some v => pyInt? v
    | none => none
  else none

/-- The completion fraction the progress loop computes at lines 370-373:
`current_time = time_ms / 1000000`, then `current_time / total_duration`
(the code multiplies by 100 for display; we keep the fraction). -/
def progressFraction (timeMs : Int) (total : ℚ) : ℚ :=
  ((timeMs : ℚ) / 1000000) / total

/-- The fractions at which the monitor loop (lines 359-389) computes a
progress value: one per parsed `out_time_ms=` line, and only when the
probed total duration is positive.  The wall-clock rate limiter
(`now - last_update >= 5`) only thins the edits actually sent and is not
modelled. -/
def progressUpdates (total : ℚ) (lines : List String) : List ℚ :=
  lines.filterMap (fun line =>
    match parseOutTime line with
    | some t => if 0 < total then some (progressFraction t total) else none
    | none => none)

/-- Outcome of `asyncio.create_subprocess_exec` and the child's run:
either the launch raised, or the child ran, produced the given stdout
lines, and exited with the given code. -/
inductive LaunchResult
  | launchFailure
  | ran (lines : List String) (exitCode : Int)
deriving DecidableEq

structure EncodeResult where
  success : Bool
  updates : List ℚ
deriving DecidableEq

/-- The ffmpeg argument vector built at lines 336-347. -/
def build_cmd (input_path output_path : String) (p : Preset) : List String :=
  ["ffmpeg", "-i", input_path,
   "-c:v", "libx264",
   "-preset", "medium",
   "-crf", "23",
   "-vf", "scale=" ++ toString p.width ++ ":" ++ toString p.height
            ++ ":force_original_aspect_ratio=decrease",
   "-c:a", "aac",
   "-b:a", "128k",
   "-movflags", "+faststart",
   "-progress", "pipe:1",
   "-y", output_path]

/-- `VideoEncoder.encode_video` (lines 320-396).  Looks up the preset (a
missing key raises and is caught by the outer `except`, returning
`False`), probes the input for a total duration, launches ffmpeg, feeds
each stdout line to the progress parser, waits for the child, and returns
`returncode == 0`.  Every exception path returns `False`; the function
never raises to its caller. -/
def encode_video (quality : String) (probe : Option ProbeJson)
    (launch : LaunchResult) : EncodeResult :=
  match QUALITY_PRESETS quality with
  | none => ⟨false, []⟩
  | some _ =>
    let total := (get_video_info probe).duration
    match launch with
    | .launchFailure => ⟨false, []⟩
    | .ran lines code => ⟨code == 0, progressUpdates total lines⟩

/-- Index of the last occurrence of `c`, Python's `str.rfind`. -/
def lastIdxOf (c : Char) : List Char → Option Nat
  | [] => none
  | a :: t =>
    match lastIdxOf c t with
    | some i => some (i + 1)
    | none => if a = c then some 0 else none

/-- The final path component, `pathlib.PurePath.name`: everything after the
last `/` (the handler's `file_name` values carry no directory part). -/
def pathNameChars (cs : List Char) : List Char :=
  match lastIdxOf '/' cs with
  | some i => cs.drop (i + 1)
  | none => cs

/-- `pathlib.PurePath.stem`: with `i` the index of the last dot of the name,
the part before the dot when `0 < i < len(name) - 1`, else the whole
name. -/
def pyStem (s : String) : String :=
  let name := pathNameChars s.data
  match lastIdxOf '.' name with
  | some i => if 0 < i ∧ i + 1 < name.length then String.mk (name.take i) else String.mk name
  | none => String.mk name

/-- `VideoEncoder.generate_output_filename` (lines 398-410): Python's
`if custom_name:` takes the override only when it is non-`None` AND
non-empty (truthiness), else the stem of the original name. -/
def generate_output_filename (original_name : String) (quality : String)
    (custom_name : Option String) : String :=
  let base :=
    match custom_name with
    | some c => if c = "" then pyStem original_name else c
    | none => pyStem original_name
  base ++ "_" ++ quality ++ ".mp4"

end VideoEncoder

/-- Semantics of the external encoder's `scale=w:h:force_original_aspect_ratio=decrease`
filter, per the tool's documentation: the output dimensions are the target
`w`:`h`, decreased (relative to the target, never relative to the input) as
needed to preserve the input aspect ratio `iw`:`ih`.  The input dimensions
enter only through their ratio, so an input smaller than the target is
scaled up to it. -/
def scaleDecrease (iw ih w h : ℚ) : ℚ × ℚ :=
  if iw * h ≤ w * ih then (iw * h / ih, h) else (w, w * ih / iw)

/-! ## Scratch paths (video_handler, lines 514-613)

One inbound video message gives one Job; the fields below are the data the
handler reads from the message and the owner's settings snapshot. -/

structure JobRequest where
  msgId : Nat
  fileName : String
  quality : String
  customName : Option String
  userId : Nat
deriving DecidableEq

/-- Line 536: `config.DOWNLOAD_DIR / f"{message.id}_{message.video.file_name}"`. -/
def input_path (r : JobRequest) : String :=
  String.mk (("/tmp/downloads/").data ++ natToChars r.msgId ++ '_' :: r.fileName.data)

/-- Lines 546-551: `config.ENCODE_DIR / generate_output_filename(...)`. -/
def output_path (r : JobRequest) : String :=
  String.mk (("/tmp/encodes/").data
    ++ (VideoEncoder.generate_output_filename r.fileName r.quality r.customName).data)

/-- Line 574: `config.THUMB_DIR / f"{message.from_user.id}.jpg"`. -/
def thumb_path (r : JobRequest) : String :=
  String.mk (("/tmp/thumbnails/").data ++ natToChars r.userId ++ (".jpg").data)

/-! ## Resource cleanup (the `finally` block, lines 606-613)

The filesystem is a list of present paths.  Each of the three local
variables `input_path`, `output_path`, `thumb_path` starts as `None` and is
unlinked at exit only if set and existing. -/

structure JobPaths where
  input_path : Option String
  output_path : Option String
  thumb_path : Option String
deriving DecidableEq

/-- One `if p and p.exists(): p.unlink()` guard of the `finally` block. -/
def unlinkIfExists (p : Option String) (fs : List String) : List String :=
  match p with
  | none => fs
  | some path => if path ∈ fs then fs.filter (fun q => q ≠ path) else fs

/-- The whole `finally` block: unlink input, output, thumbnail in order. -/
def cleanup (jp : JobPaths) (fs : List String) : List String :=
  unlinkIfExists jp.thumb_path (unlinkIfExists jp.output_path (unlinkIfExists jp.input_path fs))

theorem unlink_none (fs : List String) : unlinkIfExists none fs = fs := rfl

theorem unlink_eq_filter (p : String) (fs : List String) :
    unlinkIfExists (some p) fs = fs.filter (fun q => q ≠ p) := by
  show (if p ∈ fs then fs.filter (fun q => q ≠ p) else fs) = fs.filter (fun q => q ≠ p)
  by_cases h : p ∈ fs
  · simp [h]
  · rw [if_neg h]
    exact (List.filter_eq_self.mpr (fun a ha => by
      simp only [ne_eq, decide_eq_true_eq]
      intro hap
      exact h (hap ▸ ha))).symm

theorem mem_unlink {q : String} {x : Option String} {fs : List String} :
    q ∈ unlinkIfExists x fs ↔ q ∈ fs ∧ x ≠ some q := by
  match x with
  | none => simp [unlink_none]
  | some p =>
    rw [unlink_eq_filter]
    simp only [List.mem_filter, ne_eq, decide_eq_true_eq, Option.some.injEq]
    constructor
    · rintro ⟨h1, h2⟩
      exact ⟨h1, fun hpq => h2 hpq.symm⟩
    · rintro ⟨h1, h2⟩
      exact ⟨h1, fun hqp => h2 hqp.symm⟩

theorem mem_cleanup {q : String} {jp : JobPaths} {fs : List String} :
    q ∈ cleanup jp fs ↔
      q ∈ fs ∧ jp.input_path ≠ some q ∧ jp.output_path ≠ some q ∧ jp.thumb_path ≠ some q := by
  unfold cleanup
  rw [mem_unlink, mem_unlink, mem_unlink]
  tauto

/-- Already-absent files are tolerated: the unlink guard is a no-op. -/
theorem unlink_absent {p : String} {fs : List String} (h : p ∉ fs) :
    unlinkIfExists (some p) fs = fs := by
  unfold unlinkIfExists
  simp [h]

theorem cleanup_idempotent (jp : JobPaths) (fs : List String) :
    cleanup jp (cleanup jp fs) = cleanup jp fs := by
  have noop : ∀ (x : Option String) (l : List String),
      (∀ q, x = some q → q ∉ l) → unlinkIfExists x l = l := by
    intro x l hx
    match x with
    | none => rfl
    | some p => exact unlink_absent (hx p rfl)
  have key : ∀ q, q ∈ cleanup jp fs →
      jp.input_path ≠ some q ∧ jp.output_path ≠ some q ∧ jp.thumb_path ≠ some q :=
    fun q h => (mem_cleanup.mp h).2
  calc cleanup jp (cleanup jp fs)
      = unlinkIfExists jp.thumb_path (unlinkIfExists jp.output_path
          (unlinkIfExists jp.input_path (cleanup jp fs))) := rfl
    _ = unlinkIfExists jp.thumb_path (unlinkIfExists jp.output_path (cleanup jp fs)) := by
        rw [noop jp.input_path (cleanup jp fs) (fun q hq hm => (key q hm).1 hq)]
    _ = unlinkIfExists jp.thumb_path (cleanup jp fs) := by
        rw [noop jp.output_path (cleanup jp fs) (fun q hq hm => (key q hm).2.1 hq)]
    _ = cleanup jp fs :=
        noop jp.thumb_path (cleanup jp fs) (fun q hq hm => (key q hm).2.2 hq)

/-! ## The per-Job lifecycle: `video_handler` (lines 514-613)

External interactions are represented by a `HandlerEnv` describing their
observable outcome: whether the download raised, what the probe tool
produced, how the encoder child ran, whether a thumbnail is configured,
and whether the upload raised.  The function returns which exit the
handler took and the filesystem after its `finally` block. -/

inductive ExitKind
  | completed
  | encodeFailedMsg
  | errorMsg
deriving DecidableEq

structure HandlerEnv where
  downloadOk : Bool
  probe : Option VideoEncoder.ProbeJson
  launch : VideoEncoder.LaunchResult
  hasThumb : Bool
  uploadOk : Bool

/-- `video_handler` (lines 514-613).  The `try` body downloads to
`input_path`, encodes to `output_path`, optionally downloads the
thumbnail, and uploads; the bare `except` turns any raise into an error
message; the `finally` block always runs `cleanup` on exactly the path
variables assigned so far.  A created file appears in the filesystem
list; the early `return` on encode failure (line 569) still runs the
`finally` block. -/
def video_handler (env : HandlerEnv) (r : JobRequest) (fs : List String) :
    ExitKind × List String :=
  let ip := input_path r
  if env.downloadOk = false then
    (ExitKind.errorMsg, cleanup ⟨some ip, none, none⟩ fs)
  else
    let fs1 := ip :: fs
    let op := output_path r
    let enc := VideoEncoder.encode_video r.quality env.probe env.launch
    if enc.success = false then
      (ExitKind.encodeFailedMsg, cleanup ⟨some ip, some op, none⟩ fs1)
    else
      let fs2 := op :: fs1
      if env.hasThumb then
        let tp := thumb_path r
        let fs3 := tp :: fs2
        if env.uploadOk = false then
          (ExitKind.errorMsg, cleanup ⟨some ip, some op, some tp⟩ fs3)
        else
          (ExitKind.completed, cleanup ⟨some ip, some op, some tp⟩ fs3)
      else
        if env.uploadOk = false then
          (ExitKind.errorMsg, cleanup ⟨some ip, some op, none⟩ fs2)
        else
          (ExitKind.completed, cleanup ⟨some ip, some op, none⟩ fs2)

/-! ## Ingestion bridge: `telegram_webhook_handler` (lines 148-162) and
`main` (lines 709-713)

Flask serves the route on a foreign thread.  The handler reads the global
`main_loop`; when it is still `None` (set only once `main()` runs) the
`if request.json and main_loop:` guard skips the submission entirely and
the function still returns `("OK", 200)`.  The state records the loop
handle, the updates submitted to it, and any buffered updates (the code
maintains no such buffer, so `queued` is only ever read). -/

structure WebhookState where
  loopReady : Bool
  scheduled : List Nat
  queued : List Nat
deriving DecidableEq

def telegram_webhook_handler (upd : Option Nat) (st : WebhookState) :
    WebhookState × (String × Nat) :=
  match upd with
  | none => (st, ("OK", 200))
  | some u =>
    if st.loopReady then
      ({ st with scheduled := st.scheduled ++ [u] }, ("OK", 200))
    else
      (st, ("OK", 200))

/-- `main` (lines 709-713) eventually sets the global loop handle; from
then on, anything previously buffered would become processable.  The code
has no buffer, so this only flushes the (always empty) `queued` list. -/
def scheduler_becomes_ready (st : WebhookState) : WebhookState :=
  { loopReady := true, scheduled := st.scheduled ++ st.queued, queued := [] }

/-! ## Callback dispatch: `callback_handler` (lines 615-705)

The bot-wide state visible to the dispatcher: the in-flight job's status,
whether an encoder child process is running, the scratch files present,
and the owner's stored settings.  Every branch of the dispatcher only
edits menus, answers alerts, or updates stored settings; no branch
touches the job, the child process, or the filesystem. -/

inductive JobStatus
  | Created
  | Downloading
  | Probing
  | Encoding
  | Uploading
  | Completed
  | Failed
  | Cancelled
deriving DecidableEq

structure BotState where
  jobStatus : JobStatus
  encoderRunning : Bool
  scratch : List String
  settingsQuality : String
  settingsThumb : Option String
deriving DecidableEq

inductive CallbackAction
  | editMessage (text : String)
  | alert (text : String)
  | runHelp
  | noAction
deriving DecidableEq

/-- `callback_handler` (lines 615-705): dispatch on `callback.data`, in the
source's branch order.  The `"cancel"` branch (lines 704-705) only
answers the callback with an alert. -/
def callback_handler (data : String) (st : BotState) : BotState × CallbackAction :=
  if data = "main_menu" then
    (st, CallbackAction.editMessage ("Video Encoder Bot 2025 - Choose an option:"))
  else if data = "settings" then
    (st, CallbackAction.editMessage ("Settings"))
  else if data = "change_quality" then
    (st, CallbackAction.editMessage ("Select Video Quality"))
  else if isPrefixChars (("quality_").data) data.data then
    ({ st with settingsQuality := String.mk (((splitOnChar '_' data.data).get? 1).getD []) },
     CallbackAction.alert ("Quality set"))
  else if data = "stats" then
    (st, CallbackAction.editMessage ("Bot Statistics"))
  else if data = "set_thumb" then
    (st, CallbackAction.alert ("Reply to an image with /setthumb command"))
  else if data = "clear_thumb" then
    ({ st with settingsThumb := none }, CallbackAction.alert ("Thumbnail cleared!"))
  else if data = "help" then
    (st, CallbackAction.runHelp)
  else if data = "thumb_info" then
    (st, CallbackAction.alert ("thumbnail status"))
  else if data = "cancel" then
    (st, CallbackAction.alert ("Operation cancelled"))
  else
    (st, CallbackAction.noAction)

/-! ## Shared helper lemmas -/

/-- The supervisor's success bit depends only on the launch outcome and the
preset lookup, never on the probe result (which only feeds progress). -/
theorem encode_success_probe_indep (q : String) (p1 p2 : Option VideoEncoder.ProbeJson)
    (launch : VideoEncoder.LaunchResult) :
    (VideoEncoder.encode_video q p1 launch).success
      = (VideoEncoder.encode_video q p2 launch).success := by
  cases hq : VideoEncoder.QUALITY_PRESETS q <;> cases launch <;>
    simp [VideoEncoder.encode_video, hq]

/-- `video_handler` with its `let` bindings and outcome pairs spelled out. -/
theorem video_handler_eq (env : HandlerEnv) (r : JobRequest) (fs : List String) :
    video_handler env r fs =
      if env.downloadOk = false then
        (ExitKind.errorMsg, cleanup ⟨some (input_path r), none, none⟩ fs)
      else if (VideoEncoder.encode_video r.quality env.probe env.launch).success = false then
        (ExitKind.encodeFailedMsg,
          cleanup ⟨some (input_path r), some (output_path r), none⟩ (input_path r :: fs))
      else if env.hasThumb then
        if env.uploadOk = false then
          (ExitKind.errorMsg,
            cleanup ⟨some (input_path r), some (output_path r), some (thumb_path r)⟩
              (thumb_path r :: output_path r :: input_path r :: fs))
        else
          (ExitKind.completed,
            cleanup ⟨some (input_path r), some (output_path r), some (thumb_path r)⟩
              (thumb_path r :: output_path r :: input_path r :: fs))
      else
        if env.uploadOk = false then
          (ExitKind.errorMsg,
            cleanup ⟨some (input_path r), some (output_path r), none⟩
              (output_path r :: input_path r :: fs))
        else
          (ExitKind.completed,
            cleanup ⟨some (input_path r), some (output_path r), none⟩
              (output_path r :: input_path r :: fs)) := rfl

/-- A path is absent after cleanup as soon as it is one of the unlinked
paths, or was absent from the filesystem the cleanup ran on. -/
theorem not_mem_cleanup_of {jp : JobPaths} {fs : List String} {q : String}
    (h : jp.input_path = some q ∨ jp.output_path = some q ∨ jp.thumb_path = some q ∨ q ∉ fs) :
    q ∉ cleanup jp fs := by
  intro hmem
  obtain ⟨hfs, h1, h2, h3⟩ := mem_cleanup.mp hmem
  rcases h with h | h | h | h
  · exact h1 h
  · exact h2 h
  · exact h3 h
  · exact h hfs

/-! ## Claims -/

/-- Claim C1: the spec requires a cancel signal to move a non-terminal Job to
`Cancelled`, terminate the running encoder child, and run cleanup.  The
code's `"cancel"` callback branch (lines 704-705) only answers the
callback with an "Operation cancelled" alert: evaluated at a state where
a job is `Encoding` with the encoder child running and scratch files
present, the state after delivery is unchanged — the status is not
`Cancelled`, the child keeps running, the scratch paths remain, yet the
user is told the operation was cancelled.  This contradicts both the spec
and the code's own cancel button. -/
theorem C1_cancel_is_noop :
    ((callback_handler ("cancel")
        (BotState.mk JobStatus.Encoding true ["/tmp/downloads/1_clip.mov"] ("720p") none)).1
      = BotState.mk JobStatus.Encoding true ["/tmp/downloads/1_clip.mov"] ("720p") none)
    ∧ ((callback_handler ("cancel")
        (BotState.mk JobStatus.Encoding true ["/tmp/downloads/1_clip.mov"] ("720p") none)).1.jobStatus
      ≠ JobStatus.Cancelled)
    ∧ ((callback_handler ("cancel")
        (BotState.mk JobStatus.Encoding true ["/tmp/downloads/1_clip.mov"] ("720p") none)).1.encoderRunning
      = true)
    ∧ ((callback_handler ("cancel")
        (BotState.mk JobStatus.Encoding true ["/tmp/downloads/1_clip.mov"] ("720p") none)).2
      = CallbackAction.alert ("Operation cancelled"))
    ∧ (∀ st : BotState, (callback_handler ("cancel") st).1 = st) := by
  refine ⟨rfl, by decide, rfl, rfl, fun st => rfl⟩

/-- Claim C2 (counterexample): an update submitted while the scheduler handle
is still unset is acknowledged with `("OK", 200)` but leaves the state
untouched — it is neither scheduled nor queued, and after the scheduler
becomes ready nothing is there to process: the request is silently
lost, refuting "queued or safely rejected, never silently lost". -/
theorem C2_counterexample :
    ((telegram_webhook_handler (some 7) (WebhookState.mk false [] [])).2 = ("OK", 200))
    ∧ ((telegram_webhook_handler (some 7) (WebhookState.mk false [] [])).1
        = WebhookState.mk false [] [])
    ∧ ((scheduler_becomes_ready
          (telegram_webhook_handler (some 7) (WebhookState.mk false [] [])).1).scheduled = []) := by
  refine ⟨rfl, rfl, rfl⟩

/-- Claim C2 (amended): a submission from the foreign Flask thread never
crashes the handler — it always returns `("OK", 200)` — but when the
scheduler is not yet initialized the update is dropped without being
queued; only when the scheduler is ready is the update handed to it. -/
theorem C2_amended_no_crash_but_dropped :
    ∀ (upd : Option Nat) (st : WebhookState),
      ((telegram_webhook_handler upd st).2 = ("OK", 200))
      ∧ (st.loopReady = false → (telegram_webhook_handler upd st).1 = st)
      ∧ (st.loopReady = true → ∀ u : Nat, upd = some u →
          (telegram_webhook_handler upd st).1.scheduled = st.scheduled ++ [u]) := by
  intro upd st
  refine ⟨?_, ?_, ?_⟩
  · cases upd with
    | none => rfl
    | some u =>
      unfold telegram_webhook_handler
      by_cases h : st.loopReady <;> simp [h]
  · intro h
    cases upd with
    | none => rfl
    | some u => simp [telegram_webhook_handler, h]
  · intro h u hu
    subst hu
    simp [telegram_webhook_handler, h]

/-- Claim C2 witness: the amended statement applied to a concrete update
arriving before scheduler initialization. -/
theorem C2_witness :
    (telegram_webhook_handler (some 3) (WebhookState.mk false [] [])).1
      = WebhookState.mk false [] [] :=
  (C2_amended_no_crash_but_dropped (some 3) (WebhookState.mk false [] [])).2.1 rfl

/-- Claim C6: for a valid quality preset the supervisor returns success
exactly when the encoder child exits with code zero; a launch failure
yields a failure outcome rather than an exception (the function is
total); and the outcome is the same when the child emits no progress
lines at all. -/
theorem C6_supervisor_outcome :
    ∀ (q : String) (probe : Option VideoEncoder.ProbeJson) (lines : List String) (code : Int),
      (VideoEncoder.QUALITY_PRESETS q).isSome = true →
      (((VideoEncoder.encode_video q probe (VideoEncoder.LaunchResult.ran lines code)).success = true
          ↔ code = 0)
       ∧ ((VideoEncoder.encode_video q probe VideoEncoder.LaunchResult.launchFailure).success = false)
       ∧ ((VideoEncoder.encode_video q probe (VideoEncoder.LaunchResult.ran [] code)).success
           = (VideoEncoder.encode_video q probe (VideoEncoder.LaunchResult.ran lines code)).success)) := by
  intro q probe lines code hq
  cases hpq : VideoEncoder.QUALITY_PRESETS q with
  | none => rw [hpq] at hq; simp at hq
  | some p =>
    refine ⟨?_, ?_, ?_⟩ <;> simp [VideoEncoder.encode_video, hpq]

/-- Claim C6 witness: the supervisor contract at the 720p preset, exit code
zero, and an empty progress stream. -/
theorem C6_witness :
    ((VideoEncoder.encode_video ("720p") none (VideoEncoder.LaunchResult.ran [] 0)).success = true
       ↔ (0 : Int) = 0)
    ∧ ((VideoEncoder.encode_video ("720p") none VideoEncoder.LaunchResult.launchFailure).success = false)
    ∧ ((VideoEncoder.encode_video ("720p") none (VideoEncoder.LaunchResult.ran [] 0)).success
        = (VideoEncoder.encode_video ("720p") none (VideoEncoder.LaunchResult.ran [] 0)).success) :=
  C6_supervisor_outcome ("720p") none [] 0 (by decide)

/-- Claim C7: the probe adapter returns the all-zero record whenever the
artifact is unreadable, malformed, or the tool exits non-zero (all mapped
to a `none` probe result by the bare `except`), and it is a total
function, never raising to its caller.  Moreover a probe failure never
changes the job's outcome: the supervisor's success bit and the
handler's exit kind are identical under any two probe results — only the
progress updates differ. -/
theorem C7_probe_failure_harmless :
    (VideoEncoder.get_video_info none = VideoEncoder.VideoInfo.mk 0 0 0 0)
    ∧ (∀ (q : String) (p1 p2 : Option VideoEncoder.ProbeJson) (launch : VideoEncoder.LaunchResult),
        (VideoEncoder.encode_video q p1 launch).success
          = (VideoEncoder.encode_video q p2 launch).success)
    ∧ (∀ (env : HandlerEnv) (r : JobRequest) (fs : List String)
         (p1 p2 : Option VideoEncoder.ProbeJson),
        (video_handler { env with probe := p1 } r fs).1
          = (video_handler { env with probe := p2 } r fs).1) := by
  refine ⟨rfl, encode_success_probe_indep, ?_⟩
  intro env r fs p1 p2
  unfold video_handler
  have h := encode_success_probe_indep r.quality p1 p2 env.launch
  simp only [h]

/-- Claim C8: output filename derivation — with no usable override the name
is the stem of the original plus quality label plus `.mp4`; with a
non-empty override the override replaces the stem; the derivation is a
pure function (identical arguments give identical names); and the spec's
two scenarios hold. -/
theorem C8_filename_derivation :
    (∀ n q : String, VideoEncoder.generate_output_filename n q none
        = VideoEncoder.pyStem n ++ "_" ++ q ++ ".mp4")
    ∧ (∀ n q c : String, c ≠ "" → VideoEncoder.generate_output_filename n q (some c)
        = c ++ "_" ++ q ++ ".mp4")
    ∧ (∀ (n q : String) (c : Option String),
        VideoEncoder.generate_output_filename n q c
          = VideoEncoder.generate_output_filename n q c)
    ∧ (VideoEncoder.generate_output_filename ("clip.mov") ("720p") none = "clip_720p.mp4")
    ∧ (VideoEncoder.generate_output_filename ("clip.mov") ("480p") (some ("trailer"))
        = "trailer_480p.mp4") := by
  refine ⟨fun n q => rfl, ?_, fun n q c => rfl, by decide, by decide⟩
  intro n q c hc
  simp [VideoEncoder.generate_output_filename, hc]

/-- Claim C8 witness: the non-empty-override branch instantiated
concretely. -/
theorem C8_witness :
    VideoEncoder.generate_output_filename ("movie.mkv") ("360p") (some ("custom"))
      = "custom_360p.mp4" :=
  C8_filename_derivation.2.1 ("movie.mkv") ("360p") ("custom") (by decide)

/-- Claim C3 (counterexample): the progress loop computes
`current_time / total_duration` with no clamping.  From the line
`out_time_ms=20000000` (elapsed 20 s) with a known total duration of
10 s, the computed fraction is 2 — not `min(1, elapsed/total) = 1` —
and it lies outside `[0,1]`. -/
theorem C3_counterexample :
    (VideoEncoder.parseOutTime ("out_time_ms=20000000") = some 20000000)
    ∧ (VideoEncoder.progressFraction 20000000 10 = 2)
    ∧ (min (1 : ℚ) (((20000000 : ℚ) / 1000000) / 10) = 1)
    ∧ (VideoEncoder.progressFraction 20000000 10
        ≠ min (1 : ℚ) (((20000000 : ℚ) / 1000000) / 10))
    ∧ (¬ VideoEncoder.progressFraction 20000000 10 ≤ 1) := by
  have h2 : VideoEncoder.progressFraction 20000000 10 = 2 := by
    norm_num [VideoEncoder.progressFraction]
  have hmin : min (1 : ℚ) (((20000000 : ℚ) / 1000000) / 10) = 1 := by
    rw [min_eq_left]
    norm_num
  refine ⟨by decide, h2, hmin, ?_, ?_⟩
  · rw [h2, hmin]
    norm_num
  · rw [h2]
    norm_num

/-- Claim C3 (amended): the fraction the parser computes is exactly
`elapsed / total`, unclamped.  For a positive total it is monotone in the
elapsed time, it lies in `[0,1]` precisely when the elapsed time lies
between 0 and the total, and on that range (and only there) it agrees
with the spec's `min(1, elapsed/total)`. -/
theorem C3_amended_unclamped_fraction :
    ∀ total : ℚ, 0 < total →
      (∀ t1 t2 : Int, t1 ≤ t2 →
        VideoEncoder.progressFraction t1 total ≤ VideoEncoder.progressFraction t2 total)
      ∧ (∀ t : Int,
          (0 ≤ VideoEncoder.progressFraction t total
            ∧ VideoEncoder.progressFraction t total ≤ 1)
          ↔ (0 ≤ (t : ℚ) ∧ (t : ℚ) ≤ total * 1000000))
      ∧ (∀ t : Int, 0 ≤ (t : ℚ) → (t : ℚ) ≤ total * 1000000 →
          VideoEncoder.progressFraction t total
            = min 1 (((t : ℚ) / 1000000) / total)) := by
  intro total htotal
  have hc : (0 : ℚ) < 1000000 * total := by positivity
  have hfrac : ∀ t : Int,
      VideoEncoder.progressFraction t total = (t : ℚ) / (1000000 * total) := by
    intro t
    unfold VideoEncoder.progressFraction
    rw [div_div]
  refine ⟨?_, ?_, ?_⟩
  · intro t1 t2 hle
    rw [hfrac t1, hfrac t2]
    exact (div_le_div_iff_of_pos_right hc).mpr (by exact_mod_cast hle)
  · intro t
    rw [hfrac t]
    constructor
    · rintro ⟨h0, h1⟩
      refine ⟨?_, ?_⟩
      · by_contra hneg
        push_neg at hneg
        have : (t : ℚ) / (1000000 * total) < 0 := div_neg_of_neg_of_pos hneg hc
        linarith
      · have := (div_le_one hc).mp h1
        linarith [this, mul_comm (1000000 : ℚ) total]
    · rintro ⟨h0, h1⟩
      refine ⟨div_nonneg h0 (le_of_lt hc), ?_⟩
      rw [div_le_one hc]
      linarith [mul_comm (1000000 : ℚ) total]
  · intro t h0 h1
    have hle1 : ((t : ℚ) / 1000000) / total ≤ 1 := by
      rw [div_div, div_le_one hc]
      linarith [mul_comm (1000000 : ℚ) total]
    rw [min_eq_right hle1]
    rfl

/-- Claim C3 witness: the amended statement at total duration 10 s —
monotonicity between 1 s and 2 s of elapsed time, and agreement with the
clamped formula at 5 s. -/
theorem C3_witness :
    (VideoEncoder.progressFraction 1000000 10 ≤ VideoEncoder.progressFraction 2000000 10)
    ∧ (VideoEncoder.progressFraction 5000000 10
        = min 1 (((5000000 : ℚ) / 1000000) / 10)) :=
  ⟨(C3_amended_unclamped_fraction 10 (by norm_num)).1 1000000 2000000 (by norm_num),
   (C3_amended_unclamped_fraction 10 (by norm_num)).2.2 5000000 (by norm_num) (by norm_num)⟩

/-- Claim C9 (counterexample): the built argument vector uses
`scale=1280:720:force_original_aspect_ratio=decrease` for the 720p
preset; by the documented semantics of that filter, a 640x360 input
comes out 1280x720 — the output width exceeds the original width, so the
command does upscale past the original dimensions. -/
theorem C9_counterexample :
    (("scale=1280:720:force_original_aspect_ratio=decrease")
      ∈ VideoEncoder.build_cmd ("in.mp4") ("out.mp4") (VideoEncoder.Preset.mk 1280 720 ("2000k")))
    ∧ (scaleDecrease 640 360 1280 720 = (1280, 720))
    ∧ ((640 : ℚ) < 1280) := by
  refine ⟨by decide, ?_, by norm_num⟩
  unfold scaleDecrease
  norm_num

/-- Claim C9 (amended): the argument vector applies the fixed codec/quality
policy (libx264 at CRF 23, preset medium, AAC audio at 128k, and
`+faststart` to front-load container metadata) and a scale filter that
fits the output inside the profile's target while preserving the aspect
ratio; the filter's target does not depend on the input dimensions, and
inputs smaller than the target are scaled up to it. -/
theorem C9_amended_policy_and_scaling :
    ∀ (inp outp : String) (p : VideoEncoder.Preset) (iw ih w h : ℚ),
      0 < iw → 0 < ih → 0 < w → 0 < h →
      ((("libx264") ∈ VideoEncoder.build_cmd inp outp p)
       ∧ (("medium") ∈ VideoEncoder.build_cmd inp outp p)
       ∧ (("23") ∈ VideoEncoder.build_cmd inp outp p)
       ∧ (("aac") ∈ VideoEncoder.build_cmd inp outp p)
       ∧ (("128k") ∈ VideoEncoder.build_cmd inp outp p)
       ∧ (("+faststart") ∈ VideoEncoder.build_cmd inp outp p)
       ∧ (("scale=" ++ toString p.width ++ ":" ++ toString p.height
            ++ ":force_original_aspect_ratio=decrease") ∈ VideoEncoder.build_cmd inp outp p))
      ∧ ((scaleDecrease iw ih w h).1 ≤ w
         ∧ (scaleDecrease iw ih w h).2 ≤ h
         ∧ (scaleDecrease iw ih w h).1 * ih = (scaleDecrease iw ih w h).2 * iw) := by
  intro inp outp p iw ih w h hiw hih hw hh
  constructor
  · refine ⟨?_, ?_, ?_, ?_, ?_, ?_, ?_⟩ <;> simp [VideoEncoder.build_cmd]
  · unfold scaleDecrease
    by_cases hc : iw * h ≤ w * ih
    · simp only [hc, if_pos]
      refine ⟨?_, le_refl h, ?_⟩
      · rw [div_le_iff₀ hih]
        linarith
      · rw [div_mul_cancel₀]
        · ring
        · exact ne_of_gt hih
    · simp only [hc, if_neg, ite_false]
      push_neg at hc
      refine ⟨le_refl w, ?_, ?_⟩
      · rw [div_le_iff₀ hiw]
        linarith
      · rw [div_mul_cancel₀]
        exact ne_of_gt hiw

/-- Claim C9 witness: the amended scaling contract at a 1920x1080 input and
the 720p target — the output fits inside 1280x720 and keeps the 16:9
ratio. -/
theorem C9_witness :
    ((scaleDecrease 1920 1080 1280 720).1 ≤ 1280)
    ∧ ((scaleDecrease 1920 1080 1280 720).2 ≤ 720)
    ∧ ((scaleDecrease 1920 1080 1280 720).1 * 1080
        = (scaleDecrease 1920 1080 1280 720).2 * 1920) :=
  (C9_amended_policy_and_scaling ("i.mp4") ("o.mp4") (VideoEncoder.Preset.mk 1280 720 ("2000k"))
    1920 1080 1280 720 (by norm_num) (by norm_num) (by norm_num) (by norm_num)).2

/-- Claim C4 (counterexample): two distinct concurrent Jobs — different
message ids — for the same file name and quality produce the same output
path: only the input path carries the per-request unique id, the output
path is derived purely from the original name, quality and override, so
concurrent Jobs can collide on the output path. -/
theorem C4_counterexample :
    ((JobRequest.mk 1 ("clip.mov") ("720p") none 7).msgId
        ≠ (JobRequest.mk 2 ("clip.mov") ("720p") none 8).msgId)
    ∧ (output_path (JobRequest.mk 1 ("clip.mov") ("720p") none 7)
        = output_path (JobRequest.mk 2 ("clip.mov") ("720p") none 8)) := by
  exact ⟨by decide, by decide⟩

/-- Claim C4 (amended): the input path is namespaced by the Job's unique
message id — `{DOWNLOAD_DIR}/{message.id}_{file_name}` — so two Jobs with
distinct ids never collide on input paths (the decimal id contains no
underscore, so the id segment is recovered unambiguously); the output
path carries no such namespace. -/
theorem C4_amended_input_namespaced :
    ∀ r1 r2 : JobRequest, r1.msgId ≠ r2.msgId → input_path r1 ≠ input_path r2 := by
  intro r1 r2 hne heq
  have hdata : ("/tmp/downloads/").data ++ (natToChars r1.msgId ++ '_' :: r1.fileName.data)
      = ("/tmp/downloads/").data ++ (natToChars r2.msgId ++ '_' :: r2.fileName.data) := by
    have h := congrArg String.data heq
    simpa [input_path] using h
  have hcancel : natToChars r1.msgId ++ '_' :: r1.fileName.data
      = natToChars r2.msgId ++ '_' :: r2.fileName.data :=
    List.append_cancel_left hdata
  have hsep := append_sep_inj (natToChars r1.msgId) (natToChars r2.msgId)
    r1.fileName.data r2.fileName.data
    (underscore_not_mem_natToChars r1.msgId) (underscore_not_mem_natToChars r2.msgId) hcancel
  exact hne (natToChars_injective hsep.1)

/-- Claim C4 witness: distinct message ids 1 and 2 give distinct input
paths even for identical file names. -/
theorem C4_witness :
    input_path (JobRequest.mk 1 ("clip.mov") ("720p") none 7)
      ≠ input_path (JobRequest.mk 2 ("clip.mov") ("720p") none 8) :=
  C4_amended_input_namespaced
    (JobRequest.mk 1 ("clip.mov") ("720p") none 7)
    (JobRequest.mk 2 ("clip.mov") ("720p") none 8) (by decide)

/-- Claim C5: on every exit path of the per-Job lifecycle — success, encode
failure with early return, or an exception during download, thumbnail
fetch or upload — the `finally` block runs and afterwards none of the
Job's scratch artifacts (input file, output file, transient thumbnail
copy) is present, given the Job's paths were fresh when it started; the
unlink guard tolerates already-absent files, and running the cleanup
twice equals running it once. -/
theorem C5_cleanup_guaranteed :
    (∀ (env : HandlerEnv) (r : JobRequest) (fs : List String),
      input_path r ∉ fs → output_path r ∉ fs → thumb_path r ∉ fs →
        (input_path r ∉ (video_handler env r fs).2
         ∧ output_path r ∉ (video_handler env r fs).2
         ∧ thumb_path r ∉ (video_handler env r fs).2))
    ∧ (∀ (p : String) (fs : List String), p ∉ fs → unlinkIfExists (some p) fs = fs)
    ∧ (∀ (jp : JobPaths) (fs : List String), cleanup jp (cleanup jp fs) = cleanup jp fs) := by
  refine ⟨?_, fun p fs h => unlink_absent h, cleanup_idempotent⟩
  intro env r fs hi ho ht
  rw [video_handler_eq]
  split_ifs with hd henc hth hup hup
  all_goals dsimp only
  · exact ⟨not_mem_cleanup_of (Or.inl rfl),
      not_mem_cleanup_of (Or.inr (Or.inr (Or.inr ho))),
      not_mem_cleanup_of (Or.inr (Or.inr (Or.inr ht)))⟩
  · refine ⟨not_mem_cleanup_of (Or.inl rfl),
      not_mem_cleanup_of (Or.inr (Or.inl rfl)), ?_⟩
    by_cases htp : thumb_path r = input_path r
    · exact not_mem_cleanup_of (Or.inl (by rw [htp]))
    · refine not_mem_cleanup_of (Or.inr (Or.inr (Or.inr ?_)))
      simp only [List.mem_cons]
      rintro (h | h)
      · exact htp h
      · exact ht h
  · exact ⟨not_mem_cleanup_of (Or.inl rfl),
      not_mem_cleanup_of (Or.inr (Or.inl rfl)),
      not_mem_cleanup_of (Or.inr (Or.inr (Or.inl rfl)))⟩
  · exact ⟨not_mem_cleanup_of (Or.inl rfl),
      not_mem_cleanup_of (Or.inr (Or.inl rfl)),
      not_mem_cleanup_of (Or.inr (Or.inr (Or.inl rfl)))⟩
  · refine ⟨not_mem_cleanup_of (Or.inl rfl),
      not_mem_cleanup_of (Or.inr (Or.inl rfl)), ?_⟩
    by_cases htpo : thumb_path r = output_path r
    · exact not_mem_cleanup_of (Or.inr (Or.inl (by rw [htpo])))
    · by_cases htpi : thumb_path r = input_path r
      · exact not_mem_cleanup_of (Or.inl (by rw [htpi]))
      · refine not_mem_cleanup_of (Or.inr (Or.inr (Or.inr ?_)))
        simp only [List.mem_cons]
        rintro (h | h | h)
        · exact htpo h
        · exact htpi h
        · exact ht h
  · refine ⟨not_mem_cleanup_of (Or.inl rfl),
      not_mem_cleanup_of (Or.inr (Or.inl rfl)), ?_⟩
    by_cases htpo : thumb_path r = output_path r
    · exact not_mem_cleanup_of (Or.inr (Or.inl (by rw [htpo])))
    · by_cases htpi : thumb_path r = input_path r
      · exact not_mem_cleanup_of (Or.inl (by rw [htpi]))
      · refine not_mem_cleanup_of (Or.inr (Or.inr (Or.inr ?_)))
        simp only [List.mem_cons]
        rintro (h | h | h)
        · exact htpo h
        · exact htpi h
        · exact ht h

/-- Claim C5 witness: a successful encode of message 5 on an initially
empty scratch filesystem leaves none of the three Job paths behind. -/
theorem C5_witness :
    (input_path (JobRequest.mk 5 ("a.mov") ("720p") none 9)
        ∉ (video_handler (HandlerEnv.mk true none (VideoEncoder.LaunchResult.ran [] 0) false true)
            (JobRequest.mk 5 ("a.mov") ("720p") none 9) []).2)
    ∧ (output_path (JobRequest.mk 5 ("a.mov") ("720p") none 9)
        ∉ (video_handler (HandlerEnv.mk true none (VideoEncoder.LaunchResult.ran [] 0) false true)
            (JobRequest.mk 5 ("a.mov") ("720p") none 9) []).2)
    ∧ (thumb_path (JobRequest.mk 5 ("a.mov") ("720p") none 9)
        ∉ (video_handler (HandlerEnv.mk true none (VideoEncoder.LaunchResult.ran [] 0) false true)
            (JobRequest.mk 5 ("a.mov") ("720p") none 9) []).2) :=
  C5_cleanup_guaranteed.1
    (HandlerEnv.mk true none (VideoEncoder.LaunchResult.ran [] 0) false true)
    (JobRequest.mk 5 ("a.mov") ("720p") none 9) []
    (by simp) (by simp) (by simp)

/-- Claim C10: an empty-string override is falsy under Python's
`if custom_name:`, so it behaves exactly like no override at all — the
stem of the original name is used. -/
theorem C10_empty_override_is_unset :
    ∀ n q : String,
      VideoEncoder.generate_output_filename n q (some (""))
        = VideoEncoder.generate_output_filename n q none := by
  intro n q
  rfl

end Enco
